import Mathlib

/-!
Verification development for the `yt_summary` transcript-summarizer bot.

The Python source `src/yt_summary.py` is shallowly embedded below.
External collaborators (the OpenAI chat service, the two local
transformer pipelines) are modelled as explicit parameters: the remote
call's outcome is a `RemoteOutcome` value, and each local pipeline is a
function argument, so every definition stays executable and the
handler-level control flow (try/except fallback, logging, the
per-conversation context dictionary) is embedded exactly as written.
-/

/-- Python whitespace test used by `str.strip()` / `str.split()`
(ASCII fragment, which is what transcripts use). -/
def pyIsSpace (c : Char) : Bool :=
  c = ' ' || c = '\t' || c = '\n' || c = '\r' || c = '\x0b' || c = '\x0c'

/-- Python `s.strip()`: drop leading and trailing whitespace. -/
def pyStrip (s : String) : String :=
  String.mk ((s.data.dropWhile pyIsSpace).reverse.dropWhile pyIsSpace).reverse

/-- Single pass over the characters, accumulating the current word in
reverse; words are maximal runs of non-whitespace characters. -/
def pySplitAux : List Char → List Char → List String
  | [], acc => if acc.isEmpty then [] else [String.mk acc.reverse]
  | c :: rest, acc =>
      if pyIsSpace c then
        if acc.isEmpty then pySplitAux rest []
        else String.mk acc.reverse :: pySplitAux rest []
      else pySplitAux rest (c :: acc)

/-- Python `s.split()` (no separator): split on whitespace runs,
discarding empty pieces. -/
def pySplit (s : String) : List String :=
  pySplitAux s.data []

/-- Python `" ".join(xs)`. -/
def joinSpace (xs : List String) : String :=
  String.intercalate " " xs

/-- One caption record from the transcript provider: fields `text` and
`duration` (seconds, modelled as a rational). `start` is unused by the
code and omitted. -/
structure TranscriptEntry where
  text : String
  duration : ℚ
  deriving Repr, DecidableEq

/-- Embedding of `fetch_transcript` (src/yt_summary.py lines 56-63),
applied to the entry list returned by the provider:

    lines = [e['text'].strip() for e in transcript
             if e['text'].strip() and
                (not skip_silences or
                 len(e['text'].split()) >= min_words and e['duration'] <= 7)]
-/
def fetch_transcript (transcript : List TranscriptEntry)
    (skip_silences : Bool) (min_words : Nat) : List String :=
  (transcript.filter (fun e =>
      pyStrip e.text ≠ "" &&
      (!skip_silences || ((pySplit e.text).length ≥ min_words && e.duration ≤ 7)))).map
    (fun e => pyStrip e.text)

/-- The escape set of `escape_markdown` (line 45), the characters of the
raw Python string r"_*[]()~`>#+-=|{}.!\\", by code point:
underscore, asterisk, square brackets, parentheses, tilde, backtick,
greater-than, hash, plus, minus, equals, pipe, braces, dot, bang, and
the backslash written twice (the raw string holds two backslashes). -/
def escape_chars : List Char :=
  ([95, 42, 91, 93, 40, 41, 126, 96, 62, 35, 43, 45, 61,
    124, 123, 125, 46, 33, 92, 92].map Char.ofNat)

/-- Embedding of `escape_markdown` (lines 44-46):

    return "".join(f"\\{c}" if c in escape_chars else c for c in text)
-/
def escape_markdown (text : String) : String :=
  String.mk ((text.data.map (fun c =>
    if escape_chars.contains c then ['\\', c] else [c])).flatten)

/-- Characters of the regex class `[0-9A-Za-z_-]` in `get_video_id`. -/
def idChar (c : Char) : Bool :=
  c.isDigit || c.isUpper || c.isLower || c = '_' || c = '-'

/-- Take `n` characters from the front, all satisfying `idChar`,
returning them with the remainder; `none` when the class fails or the
input is too short.  Models the regex fragment `([0-9A-Za-z_-]{11})`. -/
def grabId : Nat → List Char → Option (List Char × List Char)
  | 0, rest => some ([], rest)
  | _ + 1, [] => none
  | n + 1, c :: rest =>
      if idChar c then
        match grabId n rest with
        | some (ids, r) => some (c :: ids, r)
        | none => none
      else none

/-- The regex fragment `(?:\?|\&|$)` at the remainder `rest`: a literal
question mark or ampersand, or Python's `$` (end of string, or just
before a single trailing newline). -/
def endMark (rest : List Char) : Bool :=
  match rest with
  | [] => true
  | ['\n'] => true
  | c :: _ => c = '?' || c = '&'

/-- The regex after either alternative of `(?:v=|\/)`: exactly eleven
class characters, then `(?:\?|\&|$)`. -/
def matchTail (rest : List Char) : Option String :=
  match grabId 11 rest with
  | some (ids, r) => if endMark r then some (String.mk ids) else none
  | none => none

/-- Try the regex `(?:v=|\/)([0-9A-Za-z_-]{11})(?:\?|\&|$)` anchored at
the current position; the two alternatives start with distinct
characters, so the match is deterministic. -/
def matchIdAt (cs : List Char) : Option String :=
  match cs with
  | 'v' :: '=' :: rest => matchTail rest
  | '/' :: rest => matchTail rest
  | _ => none

/-- `re.search`: leftmost position at which the pattern matches. -/
def searchId : List Char → Option String
  | [] => none
  | c :: rest =>
      match matchIdAt (c :: rest) with
      | some s => some s
      | none => searchId rest

/-- Embedding of `get_video_id` (lines 50-54); the raised
`ValueError("Invalid YouTube URL")` becomes `Except.error`. -/
def get_video_id (url : String) : Except String String :=
  match searchId url.data with
  | some s => Except.ok s
  | none => Except.error "Invalid YouTube URL"

/-- Outcome of one call to the remote OpenAI service, the external
collaborator of `summarize_openai` / `answer_openai`: the generated
text, an `asyncio.TimeoutError`, or an `openai.OpenAIError` carrying a
message. -/
inductive RemoteOutcome where
  | ok (text : String)
  | timeout
  | serviceError (msg : String)
  deriving Repr, DecidableEq

/-- Embedding of `summarize_openai` (lines 65-82): on success the
response content is stripped; a timeout is logged
("OpenAI summary timed out") and re-raised as
`OpenAIError("Summary request timed out")`; a service error
propagates.  Returns the emitted log lines with the result. -/
def summarize_openai (remote : RemoteOutcome) : List String × Except String String :=
  match remote with
  | RemoteOutcome.ok t => ([], Except.ok (pyStrip t))
  | RemoteOutcome.timeout =>
      (["OpenAI summary timed out"], Except.error "Summary request timed out")
  | RemoteOutcome.serviceError m => ([], Except.error m)

/-- Embedding of `answer_openai` (lines 84-101), same shape with the
Q&A log and error messages. -/
def answer_openai (remote : RemoteOutcome) : List String × Except String String :=
  match remote with
  | RemoteOutcome.ok t => ([], Except.ok (pyStrip t))
  | RemoteOutcome.timeout =>
      (["OpenAI Q&A timed out"], Except.error "Q&A request timed out")
  | RemoteOutcome.serviceError m => ([], Except.error m)

/-- Python `range(0, n, 900)` slicing of the word list in
`summarize_fallback`: successive chunks of at most 900 words. -/
def chunk900 : List String → List (List String)
  | [] => []
  | w :: ws => (w :: ws).take 900 :: chunk900 ((w :: ws).drop 900)
termination_by l => l.length
decreasing_by
  simp only [List.length_drop, List.length_cons]
  omega

/-- Embedding of `summarize_fallback` (lines 103-112).  The local
summarization pipeline (`summarizer_fallback(c, ...)[0]['summary_text']`)
is the external collaborator `model`:

    text = " ".join(lines)
    if len(text.split()) < 50: return text
    chunks = [" ".join(text.split()[i:i+900]) for i in ...]
    res = [model(c) for c in chunks]
    return "\n".join(res)
-/
def summarize_fallback (model : String → String) (lines : List String) : String :=
  let text := joinSpace lines
  if (pySplit text).length < 50 then text
  else String.intercalate "\n" ((chunk900 (pySplit text)).map (fun c => model (joinSpace c)))

/-- Embedding of `answer_fallback` (lines 114-116).  The local
question-answering pipeline (`qa_fallback(question=q, context=c)["answer"]`)
is the external collaborator `qa`, taking question then context. -/
def answer_fallback (qa : String → String → String) (context question : String) : String :=
  qa question context

/-- The summarize step of `handle_video` (lines 140-144):

    try: summary = await summarize_openai(context_text)
    except openai.OpenAIError as e:
        logger.warning(f"OpenAI summary failed: {e}. Using fallback")
        summary = summarize_fallback(lines)

Returns the summary together with all log lines emitted. -/
def summarizeWithFallback (remote : RemoteOutcome) (model : String → String)
    (lines : List String) : String × List String :=
  match summarize_openai remote with
  | (logs, Except.ok s) => (s, logs)
  | (logs, Except.error e) =>
      (summarize_fallback model lines,
       logs ++ ["OpenAI summary failed: " ++ e ++ ". Using fallback"])

/-- The answer step of `handle_question` (lines 197-201):

    try: ans = await answer_openai(ctx, question)
    except openai.OpenAIError as e:
        logger.warning(f"OpenAI Q&A failed: {e}. Using fallback")
        ans = answer_fallback(ctx, question)
-/
def answerWithFallback (remote : RemoteOutcome) (qa : String → String → String)
    (context question : String) : String × List String :=
  match answer_openai remote with
  | (logs, Except.ok s) => (s, logs)
  | (logs, Except.error e) =>
      (answer_fallback qa context question,
       logs ++ ["OpenAI Q&A failed: " ++ e ++ ". Using fallback"])

/-- The module-level dictionary `chat_context` (line 41): conversation
id (Telegram chat id, an integer) to the stored context string. -/
def ChatContext : Type := Int → Option String

/-- The context text built in `handle_video` (line 133):
`" ".join(lines[:3000])`. -/
def context_text (lines : List String) : String :=
  joinSpace (lines.take 3000)

/-- The state effect of a successful `handle_video` (line 146):
`chat_context[msg.chat.id] = context_text`. -/
def handle_video_store (st : ChatContext) (chatId : Int) (lines : List String) : ChatContext :=
  fun j => if j = chatId then some (context_text lines) else st j

/-- List-level check that `n` occurs as a leading segment of `h`. -/
def leadsWith : List Char → List Char → Bool
  | [], _ => true
  | _ :: _, [] => false
  | a :: as, b :: bs => a = b && leadsWith as bs

/-- Python `needle in hay` on strings: substring containment. -/
def pyContains (hay needle : String) : Bool :=
  go hay.data needle.data
where
  go : List Char → List Char → Bool
    | [], n => n.isEmpty
    | c :: t, n => leadsWith n (c :: t) || go t n

/-- Python `t.startswith(p)`: the characters of `p` lead `t`. -/
def pyStartsWith (t p : String) : Bool :=
  leadsWith p.data t.data

/-- The four handlers registered on the aiogram router, in registration
(and hence dispatch) order. -/
inductive Handler where
  | start
  | video
  | transcriptCmd
  | question
  deriving Repr, DecidableEq

/-- The router's dispatch (lines 120, 125, 161, 188): exact "/start",
then a message containing "youtube.com" or "youtu.be", then a message
starting with "/t ", then the catch-all question handler. -/
def route (t : String) : Handler :=
  if t = "/start" then Handler.start
  else if pyContains t "youtube.com" || pyContains t "youtu.be" then Handler.video
  else if pyStartsWith t "/t " then Handler.transcriptCmd
  else Handler.question

/-- Observable result of `handle_question`: the no-context prompt, or
an answer computed from the stored context. -/
inductive QuestionOutcome where
  | prompt (reply : String)
  | answered (ans : String)
  deriving Repr, DecidableEq

/-- Embedding of `handle_question` (lines 188-203): read the stored
context; `if not ctx` is Python truthiness, so both an absent entry
(`dict.get` returning `None`) and a stored empty string reply
"Send a YouTube link first!" and stop (no remote call, no fallback
model runs); otherwise answer the stripped question over the context
via the two-tier strategy. -/
def handle_question (st : ChatContext) (chatId : Int) (text : String)
    (remote : RemoteOutcome) (qa : String → String → String) : QuestionOutcome :=
  match st chatId with
  | none => QuestionOutcome.prompt "Send a YouTube link first!"
  | some ctx =>
      if ctx = "" then QuestionOutcome.prompt "Send a YouTube link first!"
      else QuestionOutcome.answered (answerWithFallback remote qa ctx (pyStrip text)).1

/-- Spec-side keep condition for `skipSilences=true` (spec section 4.2,
step 3, in the spec's own words): an entry is kept only if trimmed text
non-empty AND word count at least minWords AND duration at most 7. -/
def specKeepSilences (minWords : Nat) (e : TranscriptEntry) : Bool :=
  (pyStrip e.text ≠ "" && (pySplit e.text).length ≥ minWords) && e.duration ≤ 7

lemma grabId_spec : ∀ (n : Nat) (cs ids r : List Char),
    grabId n cs = some (ids, r) → ids.length = n ∧ ids.all idChar = true := by
  intro n
  induction n with
  | zero =>
      intro cs ids r h
      simp only [grabId, Option.some.injEq, Prod.mk.injEq] at h
      obtain ⟨h1, _⟩ := h
      subst h1
      simp
  | succ n ih =>
      intro cs ids r h
      cases cs with
      | nil => simp [grabId] at h
      | cons c rest =>
          unfold grabId at h
          by_cases hc : idChar c = true
          · rw [if_pos hc] at h
            cases hg : grabId n rest with
            | none => rw [hg] at h; simp at h
            | some p =>
                obtain ⟨ids0, r0⟩ := p
                rw [hg] at h
                simp only [Option.some.injEq, Prod.mk.injEq] at h
                obtain ⟨h1, h2⟩ := h
                subst h1
                have hs := ih rest ids0 r0 hg
                simp [List.all_cons, hc, hs.2, hs.1]
          · rw [if_neg hc] at h
            simp at h

lemma matchTail_spec (rest : List Char) (s : String) (h : matchTail rest = some s) :
    s.length = 11 ∧ s.data.all idChar = true := by
  unfold matchTail at h
  split at h
  · rename_i ids r hg
    split at h
    · simp only [Option.some.injEq] at h
      subst h
      have hs := grabId_spec 11 rest ids r hg
      exact ⟨hs.1, hs.2⟩
    · simp at h
  · simp at h

lemma matchIdAt_spec (cs : List Char) (s : String) (h : matchIdAt cs = some s) :
    s.length = 11 ∧ s.data.all idChar = true := by
  unfold matchIdAt at h
  split at h
  · exact matchTail_spec _ _ h
  · exact matchTail_spec _ _ h
  · simp at h

lemma searchId_spec : ∀ (cs : List Char) (s : String), searchId cs = some s →
    s.length = 11 ∧ s.data.all idChar = true := by
  intro cs
  induction cs with
  | nil => intro s h; simp [searchId] at h
  | cons c rest ih =>
      intro s h
      unfold searchId at h
      cases hm : matchIdAt (c :: rest) with
      | some t =>
          rw [hm] at h
          simp only [Option.some.injEq] at h
          subst h
          exact matchIdAt_spec _ _ hm
      | none =>
          rw [hm] at h
          exact ih s h

/-- C3: `get_video_id` extracts exactly the 11-character id segment over
the alphabet `[A-Za-z0-9_-]` whenever the regex matches, raises the
invalid-URL error otherwise, and on the scenario URL
"https://youtu.be/dQw4w9WgXcQ" returns "dQw4w9WgXcQ". -/
theorem get_video_id_spec :
    get_video_id "https://youtu.be/dQw4w9WgXcQ" = Except.ok "dQw4w9WgXcQ" ∧
    (∀ url id, get_video_id url = Except.ok id →
      id.length = 11 ∧ id.data.all idChar = true) ∧
    (∀ url, (∃ id, get_video_id url = Except.ok id) ∨
      get_video_id url = Except.error "Invalid YouTube URL") := by
  refine ⟨rfl, ?_, ?_⟩
  · intro url id h
    unfold get_video_id at h
    cases hs : searchId url.data with
    | some t =>
        rw [hs] at h
        simp only [Except.ok.injEq] at h
        subst h
        exact searchId_spec _ _ hs
    | none =>
        rw [hs] at h
        simp at h
  · intro url
    unfold get_video_id
    cases hs : searchId url.data with
    | some t => exact Or.inl ⟨t, rfl⟩
    | none => exact Or.inr rfl

/-- Witness for C3 at the scenario URL: the hypothesis of the
characterization conjunct is discharged concretely. -/
theorem get_video_id_spec_witness :
    ("dQw4w9WgXcQ" : String).length = 11 ∧
    ("dQw4w9WgXcQ" : String).data.all idChar = true :=
  get_video_id_spec.2.1 "https://youtu.be/dQw4w9WgXcQ" "dQw4w9WgXcQ" (by rfl)

/-- C2: with `skip_silences=true` and `min_words=2`, `fetch_transcript`
returns, in original order, exactly the trimmed texts of the entries
whose trimmed text is non-empty, word count at least 2 and duration at
most 7; and no entry with duration over 7 or fewer than 2 words
survives the filter. -/
theorem fetch_transcript_skip_silences (es : List TranscriptEntry) :
    fetch_transcript es true 2 =
      (es.filter (specKeepSilences 2)).map (fun e => pyStrip e.text) ∧
    ∀ e, e ∈ es → (7 < e.duration ∨ (pySplit e.text).length < 2) →
      e ∉ es.filter (specKeepSilences 2) := by
  constructor
  · unfold fetch_transcript
    congr 1
    apply List.filter_congr
    intro e _
    unfold specKeepSilences
    cases hne : decide (pyStrip e.text ≠ "") <;>
      cases hwc : decide ((pySplit e.text).length ≥ 2) <;>
        cases hd : decide (e.duration ≤ 7) <;>
          simp [hne, hwc, hd]
  · intro e _ hbad hmem
    have hk := (List.mem_filter.mp hmem).2
    unfold specKeepSilences at hk
    simp only [Bool.and_eq_true, decide_eq_true_eq] at hk
    rcases hbad with hb | hb
    · exact absurd hk.2 (not_le.mpr hb)
    · exact absurd hk.1.2 (not_le.mpr hb)

/-- Witness for C2: a one-entry list whose entry lasts 10 seconds is
filtered out entirely. -/
theorem fetch_transcript_skip_silences_witness :
    fetch_transcript [TranscriptEntry.mk "too long a pause" 10] true 2 =
      ([TranscriptEntry.mk "too long a pause" 10].filter (specKeepSilences 2)).map
        (fun e => pyStrip e.text) ∧
    TranscriptEntry.mk "too long a pause" 10 ∉
      [TranscriptEntry.mk "too long a pause" 10].filter (specKeepSilences 2) := by
  have h := fetch_transcript_skip_silences [TranscriptEntry.mk "too long a pause" 10]
  exact ⟨h.1, h.2 (TranscriptEntry.mk "too long a pause" 10) (by simp)
    (Or.inl (by norm_num))⟩

/-- C10: with `skip_silences=false`, `fetch_transcript` keeps exactly
the entries whose trimmed text is non-empty, in order, for every value
of `min_words` — the word-count and duration conditions are not
applied. -/
theorem fetch_transcript_no_skip (es : List TranscriptEntry) (min_words : Nat) :
    fetch_transcript es false min_words =
      (es.filter (fun e => pyStrip e.text ≠ "")).map (fun e => pyStrip e.text) := by
  unfold fetch_transcript
  congr 1
  apply List.filter_congr
  intro e _
  cases hne : decide (pyStrip e.text ≠ "") <;> simp [hne]

/-- C1: remote failure (timeout or service error) is the only fallback
trigger for both Summarize and Answer; on an always-timing-out remote
the operations return the local fallback's output (no exception, the
functions are total), the failure is logged, the fallback-trigger log
line appears exactly once, and a remote success never falls back. -/
theorem remote_failure_sole_fallback_trigger :
    (∀ (model : String → String) (lines : List String),
        (summarizeWithFallback RemoteOutcome.timeout model lines).1 =
          summarize_fallback model lines ∧
        (summarizeWithFallback RemoteOutcome.timeout model lines).2 =
          ["OpenAI summary timed out",
           "OpenAI summary failed: Summary request timed out. Using fallback"] ∧
        ((summarizeWithFallback RemoteOutcome.timeout model lines).2.countP
          (fun l =>
            l = "OpenAI summary failed: Summary request timed out. Using fallback")) = 1 ∧
        ∀ m, (summarizeWithFallback (RemoteOutcome.serviceError m) model lines).1 =
          summarize_fallback model lines) ∧
    (∀ (model : String → String) (lines : List String) (s : String),
        (summarizeWithFallback (RemoteOutcome.ok s) model lines).1 = pyStrip s ∧
        (summarizeWithFallback (RemoteOutcome.ok s) model lines).2 = []) ∧
    (∀ (qa : String → String → String) (ctx q : String),
        (answerWithFallback RemoteOutcome.timeout qa ctx q).1 =
          answer_fallback qa ctx q ∧
        ((answerWithFallback RemoteOutcome.timeout qa ctx q).2.countP
          (fun l => l = "OpenAI Q&A failed: Q&A request timed out. Using fallback")) = 1 ∧
        (∀ m, (answerWithFallback (RemoteOutcome.serviceError m) qa ctx q).1 =
          answer_fallback qa ctx q) ∧
        ∀ s, (answerWithFallback (RemoteOutcome.ok s) qa ctx q).1 = pyStrip s) := by
  refine ⟨fun model lines => ⟨rfl, rfl, ?_, fun m => rfl⟩,
          fun model lines s => ⟨rfl, rfl⟩,
          fun qa ctx q => ⟨rfl, ?_, fun m => rfl, fun s => rfl⟩⟩
  · rfl
  · rfl

/-- C4 counterexample: with the remote tier timing out, Summarize on
the empty transcript returns the empty string — not a non-empty string
and not the literal "Summary not available.". -/
theorem summarize_empty_result_cex :
    (summarizeWithFallback RemoteOutcome.timeout (fun c => c) []).1 = "" ∧
    (summarizeWithFallback RemoteOutcome.timeout (fun c => c) []).1 ≠
      "Summary not available." := by
  exact ⟨rfl, by decide⟩

/-- C4 amended: the local fallback gives no non-emptiness guarantee —
on the empty transcript it returns the joined text, the empty string,
for every local model; the "Summary not available." literal is not
part of this code's behavior. -/
theorem summarize_fallback_empty_transcript (model : String → String) :
    summarize_fallback model [] = "" ∧
    (summarizeWithFallback RemoteOutcome.timeout model []).1 = "" := by
  exact ⟨rfl, rfl⟩

/-- C5 counterexample: with a concrete QA model, a question sharing no
keyword with the context yields the model's span, not the literal
"No answer found in the transcript.". -/
theorem answer_fallback_literal_cex :
    answer_fallback (fun _ _ => "a verbatim model span") "The cat sat on the mat" "zzz qqq"
      = "a verbatim model span" ∧
    answer_fallback (fun _ _ => "a verbatim model span") "The cat sat on the mat" "zzz qqq"
      ≠ "No answer found in the transcript." := by
  exact ⟨rfl, by decide⟩

/-- C5 amended: the local-fallback Answer runs the extractive QA model
over the full context and returns its predicted span verbatim,
regardless of any keyword overlap; no sentence matching and no
"No answer found in the transcript." literal exist in this code. -/
theorem answer_fallback_model_span (qa : String → String → String) (ctx q : String) :
    (answerWithFallback RemoteOutcome.timeout qa ctx q).1 = qa q ctx := rfl

/-- C6: the context store maps each conversation id to at most one
string; a successful `handle_video` stores the space-joined first 3000
transcript lines, a second video in the same conversation replaces the
first video's context entirely (the resulting store is the one obtained
by processing only the second video), and other conversations are
untouched. -/
theorem context_store_overwrite (st : ChatContext) (chatId : Int)
    (lines1 lines2 : List String) :
    handle_video_store st chatId lines1 chatId =
      some (joinSpace (lines1.take 3000)) ∧
    handle_video_store (handle_video_store st chatId lines1) chatId lines2 =
      handle_video_store st chatId lines2 ∧
    handle_video_store (handle_video_store st chatId lines1) chatId lines2 chatId =
      some (joinSpace (lines2.take 3000)) ∧
    ∀ j, j ≠ chatId → handle_video_store st chatId lines1 j = st j := by
  refine ⟨by simp [handle_video_store, context_text], ?_, ?_, ?_⟩
  · funext j
    by_cases hj : j = chatId <;> simp [handle_video_store, hj]
  · simp [handle_video_store, context_text]
  · intro j hj
    simp [handle_video_store, hj]

/-- Witness for C6 at concrete stores and line lists. -/
theorem context_store_overwrite_witness :
    handle_video_store (fun _ => none) 1 ["first video"] 1 =
      some (joinSpace (["first video"].take 3000)) ∧
    handle_video_store (handle_video_store (fun _ => none) 1 ["first video"]) 1
        ["second video"] =
      handle_video_store (fun _ => none) 1 ["second video"] ∧
    handle_video_store (handle_video_store (fun _ => none) 1 ["first video"]) 1
        ["second video"] 1 =
      some (joinSpace (["second video"].take 3000)) ∧
    handle_video_store (fun _ => none) 1 ["first video"] 0 = none := by
  have h := context_store_overwrite (fun _ => none) 1 ["first video"] ["second video"]
  exact ⟨h.1, h.2.1, h.2.2.1, h.2.2.2 0 (by decide)⟩

/-- C7: when the joined text has fewer than 50 words, the local
Summarize fallback returns the joined text unchanged, for every local
model. -/
theorem summarize_fallback_short_identity (model : String → String)
    (lines : List String) (h : (pySplit (joinSpace lines)).length < 50) :
    summarize_fallback model lines = joinSpace lines := by
  simp only [summarize_fallback]
  rw [if_pos h]

/-- Witness for C7: the empty transcript joins to the empty string,
zero words, and Summarize returns it unchanged without raising. -/
theorem summarize_fallback_short_identity_witness :
    (pySplit (joinSpace ([] : List String))).length < 50 ∧
    summarize_fallback (fun c => c) [] = joinSpace ([] : List String) :=
  ⟨by decide, summarize_fallback_short_identity (fun c => c) [] (by decide)⟩

/-- C8 counterexample: a conversation whose stored context is the
empty string (reachable when every transcript entry is filtered out,
so line 146 stores `" ".join([]) = ""`) has a context stored, yet the
handler replies "Send a YouTube link first!" instead of treating the
message as a question — Python's `if not ctx` truthiness check. -/
theorem question_empty_context_cex :
    (fun _ => some "" : ChatContext) 5 = some "" ∧
    handle_question (fun _ => some "") 5 "hello" RemoteOutcome.timeout
        (fun _ _ => "span") =
      QuestionOutcome.prompt "Send a YouTube link first!" ∧
    ∀ a, handle_question (fun _ => some "") 5 "hello" RemoteOutcome.timeout
        (fun _ _ => "span") ≠ QuestionOutcome.answered a := by
  refine ⟨rfl, rfl, fun a h => ?_⟩
  simp [handle_question] at h

/-- C8 amended: a message that is not "/start", contains neither
"youtube.com" nor "youtu.be", and does not start with "/t " routes to
the question handler; with no stored context — or a stored empty
string, which Python's `if not ctx` truthiness check treats the same —
it replies "Send a YouTube link first!" (independently of the remote
service and the QA model, which are never consulted), and with a
non-empty stored context the message is answered as a question over
that context. -/
theorem question_routing_no_context (st : ChatContext) (chatId : Int) (t : String)
    (remote : RemoteOutcome) (qa : String → String → String)
    (h1 : t ≠ "/start") (h2 : pyContains t "youtube.com" = false)
    (h3 : pyContains t "youtu.be" = false) (h4 : pyStartsWith t "/t " = false) :
    route t = Handler.question ∧
    (st chatId = none →
      handle_question st chatId t remote qa =
        QuestionOutcome.prompt "Send a YouTube link first!") ∧
    (st chatId = some "" →
      handle_question st chatId t remote qa =
        QuestionOutcome.prompt "Send a YouTube link first!") ∧
    (∀ ctx, st chatId = some ctx → ctx ≠ "" →
      handle_question st chatId t remote qa =
        QuestionOutcome.answered (answerWithFallback remote qa ctx (pyStrip t)).1) := by
  refine ⟨by simp [route, h1, h2, h3, h4], ?_, ?_, ?_⟩
  · intro hnone
    simp [handle_question, hnone]
  · intro hempty
    simp [handle_question, hempty]
  · intro ctx hctx hne
    simp [handle_question, hctx, hne]

/-- Witness for C8 at a concrete plain message, for an empty store, a
store holding the empty string, and a store holding a real context. -/
theorem question_routing_no_context_witness :
    route "hello there" = Handler.question ∧
    handle_question (fun _ => none) 7 "hello there" RemoteOutcome.timeout
        (fun _ _ => "span") =
      QuestionOutcome.prompt "Send a YouTube link first!" ∧
    handle_question (fun _ => some "") 7 "hello there" RemoteOutcome.timeout
        (fun _ _ => "span") =
      QuestionOutcome.prompt "Send a YouTube link first!" ∧
    handle_question (fun _ => some "the transcript") 7 "hello there" RemoteOutcome.timeout
        (fun _ _ => "span") =
      QuestionOutcome.answered
        (answerWithFallback RemoteOutcome.timeout (fun _ _ => "span") "the transcript"
          (pyStrip "hello there")).1 := by
  have h1 := question_routing_no_context (fun _ => none) 7 "hello there"
    RemoteOutcome.timeout (fun _ _ => "span") (by decide) (by decide) (by decide) (by decide)
  have h2 := question_routing_no_context (fun _ => some "") 7 "hello there"
    RemoteOutcome.timeout (fun _ _ => "span") (by decide) (by decide) (by decide) (by decide)
  have h3 := question_routing_no_context (fun _ => some "the transcript") 7 "hello there"
    RemoteOutcome.timeout (fun _ _ => "span") (by decide) (by decide) (by decide) (by decide)
  exact ⟨h1.1, h1.2.1 rfl, h2.2.2.1 rfl,
    h3.2.2.2 "the transcript" rfl (by decide)⟩

lemma escape_markdown_data (text : String) :
    (escape_markdown text).data =
      (text.data.map (fun c =>
        if escape_chars.contains c then ['\\', c] else [c])).flatten := rfl

/-- C9: `escape_markdown` prefixes every character of the MarkdownV2
escape set with a backslash and leaves every other character unchanged
(characterized per character plus concatenation compatibility), and on
the scenario input "Q&A (90%)." produces exactly "Q&A \(90%\)\.". -/
theorem escape_markdown_spec :
    (∀ c : Char, escape_markdown (String.singleton c) =
      if escape_chars.contains c then String.mk ['\\', c] else String.singleton c) ∧
    (∀ s t : String, escape_markdown (s ++ t) =
      escape_markdown s ++ escape_markdown t) ∧
    escape_markdown "Q&A (90%)." = "Q&A \\(90%\\)\\." := by
  refine ⟨?_, ?_, by rfl⟩
  · intro c
    apply String.ext
    have hsing : (String.singleton c).data = [c] := rfl
    cases hc : escape_chars.contains c with
    | true =>
        show (List.map (fun d =>
            if escape_chars.contains d then ['\\', d] else [d]) [c]).flatten =
          (if true = true then String.mk ['\\', c] else String.singleton c).data
        simp at hc
        simp [hc]
    | false =>
        show (List.map (fun d =>
            if escape_chars.contains d then ['\\', d] else [d]) [c]).flatten =
          (if false = true then String.mk ['\\', c] else String.singleton c).data
        simp at hc
        simp [hc, hsing]
  · intro s t
    apply String.ext
    show _ = (String.mk _ ++ String.mk _).data
    simp [escape_markdown_data, String.data_append]
